import Mathlib

/-!
Shallow embedding of `glcRobustBufferAccessBehaviorTests.cpp` (OpenGL CTS,
"robust buffer access behavior" test module) and proofs about it.

The embedding models:
* the resource wrapper classes (`Buffer`, `Framebuffer`, `Shader`, `Program`,
  `Texture`, `VertexArray`) as explicit state (`m_id` fields, plus the shader
  ids held by a `Program`) together with the list of GL calls a member
  function issues;
* `replaceToken` and `std::string::find` over `List Char`, with the
  out-of-range exception of `std::string::replace` modelled as `Option.none`;
* the per-test verification routines over read-back data, with `GLfloat`
  values represented as rationals (only equality comparisons occur in the
  code) and log messages counted;
* the feature-support check and the common early-exit prologue of the five
  `iterate()` member functions.
-/

namespace RobustBufferAccessBehavior

/-- GL calls that the modelled member functions can issue.  Ids are `Nat`
(the numeric value of the `GLuint`). -/
inductive GLCall where
  | deleteBuffers (id : Nat)
  | deleteFramebuffers (id : Nat)
  | useProgram (id : Nat)
  | deleteProgram (id : Nat)
  | deleteShader (id : Nat)
  | deleteTextures (id : Nat)
  | bindVertexArray (id : Nat)
  | deleteVertexArrays (id : Nat)
  | createShader (stage : Nat) (id : Nat)
  | shaderSource (id : Nat)
  | compileShader (id : Nat)
  | createProgram (id : Nat)
  | attachShader (program_id : Nat) (shader_id : Nat)
  | linkProgram (id : Nat)
  deriving DecidableEq, Repr

/-- `GL_COMPUTE_SHADER` -/
def GL_COMPUTE_SHADER : Nat := 0x91B9
/-- `GL_FRAGMENT_SHADER` -/
def GL_FRAGMENT_SHADER : Nat := 0x8B30
/-- `GL_GEOMETRY_SHADER` -/
def GL_GEOMETRY_SHADER : Nat := 0x8DD9
/-- `GL_TESS_CONTROL_SHADER` -/
def GL_TESS_CONTROL_SHADER : Nat := 0x8E88
/-- `GL_TESS_EVALUATION_SHADER` -/
def GL_TESS_EVALUATION_SHADER : Nat := 0x8E87
/-- `GL_VERTEX_SHADER` -/
def GL_VERTEX_SHADER : Nat := 0x8B31

/-- `const GLuint Buffer::m_invalid_id = -1;` (as a `GLuint`). -/
def Buffer.m_invalid_id : Nat := 4294967295

/-- `Buffer::Release` (source lines 99-110): if `m_id` is valid, delete the
buffer and reset `m_id` to `m_invalid_id`.  Returns the new `m_id` and the GL
calls issued. -/
def Buffer.Release (m_id : Nat) : Nat × List GLCall :=
  if Buffer.m_invalid_id ≠ m_id then
    (Buffer.m_invalid_id, [GLCall.deleteBuffers m_id])
  else
    (m_id, [])

/-- `const GLuint Framebuffer::m_invalid_id = -1;` -/
def Framebuffer.m_invalid_id : Nat := 4294967295

/-- `Framebuffer::Release` (source lines 231-240). -/
def Framebuffer.Release (m_id : Nat) : Nat × List GLCall :=
  if Framebuffer.m_invalid_id ≠ m_id then
    (Framebuffer.m_invalid_id, [GLCall.deleteFramebuffers m_id])
  else
    (m_id, [])

/-- `const GLuint Shader::m_invalid_id = 0;` -/
def Shader.m_invalid_id : Nat := 0

/-- `Shader::Release` (source lines 523-534). -/
def Shader.Release (m_id : Nat) : Nat × List GLCall :=
  if Shader.m_invalid_id ≠ m_id then
    (Shader.m_invalid_id, [GLCall.deleteShader m_id])
  else
    (m_id, [])

/-- `const GLuint Texture::m_invalid_id = -1;` -/
def Texture.m_invalid_id : Nat := 4294967295

/-- `Texture::Release` (source lines 629-638). -/
def Texture.Release (m_id : Nat) : Nat × List GLCall :=
  if Texture.m_invalid_id ≠ m_id then
    (Texture.m_invalid_id, [GLCall.deleteTextures m_id])
  else
    (m_id, [])

/-- `const GLuint VertexArray::m_invalid_id = -1;` -/
def VertexArray.m_invalid_id : Nat := 4294967295

/-- `VertexArray::Release` (source lines 953-965): binds VAO 0, then deletes
the vertex array. -/
def VertexArray.Release (m_id : Nat) : Nat × List GLCall :=
  if VertexArray.m_invalid_id ≠ m_id then
    (VertexArray.m_invalid_id, [GLCall.bindVertexArray 0, GLCall.deleteVertexArrays m_id])
  else
    (m_id, [])

/-- `const GLuint Program::m_invalid_id = 0;` -/
def Program.m_invalid_id : Nat := 0

/-- The mutable state of a `Program` object: its own id and the ids of the
six member `Shader` objects. -/
structure ProgramState where
  m_id : Nat
  m_compute : Nat
  m_fragment : Nat
  m_geometry : Nat
  m_tess_ctrl : Nat
  m_tess_eval : Nat
  m_vertex : Nat
  deriving DecidableEq, Repr

/-- A freshly constructed `Program`: every id is the corresponding invalid id. -/
def ProgramState.fresh : ProgramState :=
  { m_id := Program.m_invalid_id
    m_compute := Shader.m_invalid_id
    m_fragment := Shader.m_invalid_id
    m_geometry := Shader.m_invalid_id
    m_tess_ctrl := Shader.m_invalid_id
    m_tess_eval := Shader.m_invalid_id
    m_vertex := Shader.m_invalid_id }

/-- `Program::Release` (source lines 362-381): if the program id is valid,
`glUseProgram(m_invalid_id)` then delete it; afterwards release the six
shaders in declaration order. -/
def Program.Release (p : ProgramState) : ProgramState × List GLCall :=
  let prog :=
    if Program.m_invalid_id ≠ p.m_id then
      (Program.m_invalid_id, [GLCall.useProgram Program.m_invalid_id, GLCall.deleteProgram p.m_id])
    else
      (p.m_id, ([] : List GLCall))
  let c := Shader.Release p.m_compute
  let f := Shader.Release p.m_fragment
  let g := Shader.Release p.m_geometry
  let tc := Shader.Release p.m_tess_ctrl
  let te := Shader.Release p.m_tess_eval
  let v := Shader.Release p.m_vertex
  ({ m_id := prog.1
     m_compute := c.1
     m_fragment := f.1
     m_geometry := g.1
     m_tess_ctrl := tc.1
     m_tess_eval := te.1
     m_vertex := v.1 },
   prog.2 ++ c.2 ++ f.2 ++ g.2 ++ tc.2 ++ te.2 ++ v.2)

/-- `VertexBufferObjectsTest::verifyResults` (source lines 1271-1299): reads
back the 8x8 `R8UI` texture and returns `true` iff every one of the 64 texels
equals 255 (the loop returns `false` at the first texel that differs).  The
read-back pixels are the function's input here. -/
def VertexBufferObjectsTest.verifyResults (pixels : Fin 64 → Nat) : Bool :=
  (List.finRange 64).all (fun i => 255 == pixels i)

/-- `VertexBufferObjectsTest::verifyValidResults` (source lines 1260-1263). -/
def VertexBufferObjectsTest.verifyValidResults (pixels : Fin 64 → Nat) : Bool :=
  VertexBufferObjectsTest.verifyResults pixels

/-- `VertexBufferObjectsTest::verifyInvalidResults` (source lines 1249-1252):
`return !verifyResults(texture_id);`. -/
def VertexBufferObjectsTest.verifyInvalidResults (pixels : Fin 64 → Nat) : Bool :=
  !VertexBufferObjectsTest.verifyResults pixels

/-- Helper: the VBO read-back check succeeds iff all 64 texels are 255. -/
theorem vbo_verifyResults_eq_true_iff (pixels : Fin 64 → Nat) :
    VertexBufferObjectsTest.verifyResults pixels = true ↔ ∀ i : Fin 64, pixels i = 255 := by
  rw [VertexBufferObjectsTest.verifyResults, List.all_eq_true]
  constructor
  · intro h i
    have := h i (List.mem_finRange i)
    exact (Nat.beq_eq ..).mp (by simpa using this) |>.symm
  · intro h i _
    simp [h i]

/-- Scanning loop of `std::string::find`: `strFindAux token l i` scans the
suffix `l` of the subject string, `i` being the absolute index of the first
character of `l`, and returns the least absolute index `≥ i` at which `token`
occurs, or `none` when it does not occur. -/
def strFindAux (token : List Char) : List Char → Nat → Option Nat
  | [], i => if token.isPrefixOf [] then some i else none
  | c :: rest, i =>
      if token.isPrefixOf (c :: rest) then some i else strFindAux token rest (i + 1)

/-- `std::string::find(token, pos)` over `List Char`; `none` models
`std::string::npos`. -/
def strFind (s token : List Char) (pos : Nat) : Option Nat :=
  if pos ≤ s.length then strFindAux token (s.drop pos) pos else none

/-- `replaceToken` (source lines 1005-1014): find the first occurrence of
`token` at or after `search_position`, replace it by `text`, and set the
search position past the inserted text.  `none` models the
`std::out_of_range` exception thrown by `std::string::replace` when `find`
returned `npos`. -/
def replaceToken (token : List Char) (search_position : Nat) (text : List Char)
    (s : List Char) : Option (List Char × Nat) :=
  match strFind s token search_position with
  | none => none
  | some token_position =>
      some (s.take token_position ++ text ++ s.drop (token_position + token.length),
            token_position + text.length)

/-- Helper: the scan's result does not depend on the absolute start index,
except for an offset. -/
theorem strFindAux_shift (token : List Char) :
    ∀ (l : List Char) (i : Nat),
      strFindAux token l i = (strFindAux token l 0).map (fun p => p + i) := by
  intro l
  induction l with
  | nil =>
      intro i
      by_cases h : token.isPrefixOf [] <;> simp [strFindAux, h]
  | cons c rest ih =>
      intro i
      by_cases h : token.isPrefixOf (c :: rest)
      · simp [strFindAux, h]
      · simp only [strFindAux, h, if_false, ih (i + 1), ih 1, Option.map_map]
        cases strFindAux token rest 0 with
        | none => simp
        | some p =>
            simp
            omega

/-- Helper: soundness of the scan: a returned index is an actual occurrence,
and the least one at or after the start of the scan. -/
theorem strFindAux_sound (token : List Char) :
    ∀ (l : List Char) (i p : Nat), strFindAux token l i = some p →
      ∃ k, p = i + k ∧ k ≤ l.length ∧ token.isPrefixOf (l.drop k)
        ∧ ∀ j, j < k → ¬ token.isPrefixOf (l.drop j) := by
  intro l
  induction l with
  | nil =>
      intro i p h
      by_cases hp : token.isPrefixOf [] <;> simp [strFindAux, hp] at h
      exact ⟨0, by omega, by simp, by simpa using hp, by omega⟩
  | cons c rest ih =>
      intro i p h
      by_cases hp : token.isPrefixOf (c :: rest)
      · simp [strFindAux, hp] at h
        exact ⟨0, by omega, by simp, by simpa using hp, by omega⟩
      · simp only [strFindAux, hp, if_false] at h
        obtain ⟨k, hk1, hk2, hk3, hk4⟩ := ih (i + 1) p h
        refine ⟨k + 1, by omega, by simpa using hk2, by simpa using hk3, ?_⟩
        intro j hj
        match j with
        | 0 => simpa using hp
        | j + 1 => exact hk4 j (by omega)

/-- Helper: completeness of the scan: if an occurrence exists, the scan finds
something. -/
theorem strFindAux_complete (token : List Char) :
    ∀ (l : List Char) (k i : Nat), k ≤ l.length → token.isPrefixOf (l.drop k) →
      ∃ p, strFindAux token l i = some p := by
  intro l
  induction l with
  | nil =>
      intro k i hk hpre
      obtain rfl : k = 0 := by simpa using hk
      simp only [List.drop_nil] at hpre
      exact ⟨i, by simp [strFindAux, hpre]⟩
  | cons c rest ih =>
      intro k i hk hpre
      by_cases hp : token.isPrefixOf (c :: rest)
      · exact ⟨i, by simp [strFindAux, hp]⟩
      · match k with
        | 0 => simp only [List.drop_zero] at hpre; exact absurd hpre hp
        | k + 1 =>
            obtain ⟨p, hfound⟩ := ih k (i + 1) (by simpa using hk) (by simpa using hpre)
            exact ⟨p, by simp [strFindAux, hp, hfound]⟩

/-- Helper: soundness of `strFind`: the result is the first occurrence of the
token at or after the search position. -/
theorem strFind_sound (s token : List Char) (pos p : Nat)
    (h : strFind s token pos = some p) :
    pos ≤ p ∧ p ≤ s.length ∧ token.isPrefixOf (s.drop p)
      ∧ ∀ q, pos ≤ q → q < p → ¬ token.isPrefixOf (s.drop q) := by
  rw [strFind] at h
  by_cases hpos : pos ≤ s.length
  · rw [if_pos hpos] at h
    obtain ⟨k, hk1, hk2, hk3, hk4⟩ := strFindAux_sound token (s.drop pos) pos p h
    rw [List.length_drop] at hk2
    rw [List.drop_drop] at hk3
    refine ⟨by omega, by omega, ?_, ?_⟩
    · rw [← hk1] at hk3
      exact hk3
    · intro q hq1 hq2 hcon
      have := hk4 (q - pos) (by omega)
      rw [List.drop_drop] at this
      have hqe : pos + (q - pos) = q := by omega
      rw [hqe] at this
      exact this hcon
  · rw [if_neg hpos] at h
    exact absurd h (by simp)

/-- Helper: completeness of `strFind`: if the token occurs at or after the
search position, `strFind` returns some index. -/
theorem strFind_complete (s token : List Char) (pos k : Nat)
    (hk1 : pos ≤ k) (hk2 : k ≤ s.length) (hpre : token.isPrefixOf (s.drop k)) :
    ∃ p, strFind s token pos = some p := by
  rw [strFind, if_pos (le_trans hk1 hk2)]
  refine strFindAux_complete token (s.drop pos) (k - pos) pos ?_ ?_
  · rw [List.length_drop]
    omega
  · rw [List.drop_drop]
    have : pos + (k - pos) = k := by omega
    rwa [this]

/-- Helper: taking `x.length + n` elements of `x ++ y` takes all of `x` and
`n` elements of `y`. -/
theorem take_append_add {α : Type} (x y : List α) (n : Nat) :
    (x ++ y).take (x.length + n) = x ++ y.take n := by
  induction x with
  | nil => simp
  | cons c xs ih =>
      simp only [List.cons_append, List.length_cons]
      have h : xs.length + 1 + n = (xs.length + n) + 1 := by omega
      rw [h, List.take_succ_cons, ih]

/-- Helper: dropping `x.length + n` elements of `x ++ y` drops all of `x` and
`n` elements of `y`. -/
theorem drop_append_add {α : Type} (x y : List α) (n : Nat) :
    (x ++ y).drop (x.length + n) = y.drop n := by
  induction x with
  | nil => simp
  | cons c xs ih =>
      simp only [List.cons_append, List.length_cons]
      have h : xs.length + 1 + n = (xs.length + n) + 1 := by omega
      rw [h, List.drop_succ_cons, ih]

/-- Helper: replacing with the search position at the start of the second half
of a concatenation only operates on the second half. -/
theorem replaceToken_shifted (x y token text : List Char) :
    replaceToken token x.length text (x ++ y)
      = (replaceToken token 0 text y).map (fun r => (x ++ r.1, x.length + r.2)) := by
  have hfind : strFind (x ++ y) token x.length
      = (strFind y token 0).map (fun p => x.length + p) := by
    rw [strFind, strFind, if_pos (by simp), if_pos (Nat.zero_le _), List.drop_left,
      List.drop_zero, strFindAux_shift token y x.length]
    cases strFindAux token y 0 with
    | none => simp
    | some q => simp [Nat.add_comm]
  rw [replaceToken, replaceToken, hfind]
  cases hf : strFind y token 0 with
  | none => simp
  | some q =>
      simp only [Option.map_some']
      rw [take_append_add]
      have h : x.length + q + token.length = x.length + (q + token.length) := by omega
      rw [h, drop_append_add]
      simp [List.append_assoc, Nat.add_assoc]

/-- Helper: replacing from search position 0 in `pre ++ token ++ rest` when
the first occurrence of the token is at `pre.length`. -/
theorem replaceToken_exact (pre rest token text : List Char)
    (hfind : strFind (pre ++ token ++ rest) token 0 = some pre.length) :
    replaceToken token 0 text (pre ++ token ++ rest)
      = some (pre ++ text ++ rest, pre.length + text.length) := by
  rw [replaceToken, hfind]
  dsimp only
  rw [List.append_assoc pre token rest, List.take_left, drop_append_add, List.drop_left,
    List.append_assoc]

/-- Helper: composing the two `replaceToken` calls of `getComputeShader` on a
template of the form `pre ++ token ++ mid ++ token ++ post`. -/
theorem replaceToken_two (pre mid post token d1 d2 : List Char)
    (h1 : strFind (pre ++ token ++ (mid ++ token ++ post)) token 0 = some pre.length)
    (h2 : strFind (mid ++ token ++ post) token 0 = some mid.length) :
    replaceToken token 0 d1 (pre ++ token ++ (mid ++ token ++ post))
        = some (pre ++ d1 ++ (mid ++ token ++ post), pre.length + d1.length)
    ∧ replaceToken token (pre.length + d1.length) d2 (pre ++ d1 ++ (mid ++ token ++ post))
        = some (pre ++ d1 ++ mid ++ d2 ++ post,
                (pre ++ d1).length + (mid.length + d2.length)) := by
  refine ⟨replaceToken_exact pre (mid ++ token ++ post) token d1 h1, ?_⟩
  have e1 : pre ++ d1 ++ (mid ++ token ++ post)
      = (pre ++ d1) ++ (mid ++ token ++ post) := by
    simp [List.append_assoc]
  have e2 : pre.length + d1.length = (pre ++ d1).length := by simp
  rw [e1, e2, replaceToken_shifted, replaceToken_exact mid post token d2 h2]
  simp [List.append_assoc]

/-- C2: whenever the token occurs in the subject at or after the search
position, `replaceToken` replaces exactly the first such occurrence with the
text — the output is the unchanged part before the occurrence, then the text,
then the unchanged part after the replaced range — and the updated search
position is `token_position + strlen(text)`. -/
theorem c2_replaceToken_correct (token text s : List Char) (pos : Nat)
    (hocc : ∃ k, pos ≤ k ∧ k ≤ s.length ∧ token.isPrefixOf (s.drop k)) :
    ∃ p, pos ≤ p ∧ token.isPrefixOf (s.drop p)
      ∧ (∀ q, pos ≤ q → q < p → ¬ token.isPrefixOf (s.drop q))
      ∧ replaceToken token pos text s
          = some (s.take p ++ text ++ s.drop (p + token.length), p + text.length) := by
  obtain ⟨k, hk1, hk2, hk3⟩ := hocc
  obtain ⟨p, hp⟩ := strFind_complete s token pos k hk1 hk2 hk3
  obtain ⟨h1, h2, h3, h4⟩ := strFind_sound s token pos p hp
  exact ⟨p, h1, h3, h4, by rw [replaceToken, hp]⟩

/-- Witness for C2 at a concrete input: in `"ab OFFSET cd"` the token
`"OFFSET"` first occurs at index 3, so replacing it by `"1024"` from search
position 0 yields `"ab 1024 cd"` and search position 7. -/
theorem c2_replaceToken_correct_witness :
    ∃ p, 0 ≤ p
      ∧ "OFFSET".toList.isPrefixOf ("ab OFFSET cd".toList.drop p)
      ∧ (∀ q, 0 ≤ q → q < p → ¬ "OFFSET".toList.isPrefixOf ("ab OFFSET cd".toList.drop q))
      ∧ replaceToken "OFFSET".toList 0 "1024".toList "ab OFFSET cd".toList
          = some ("ab OFFSET cd".toList.take p ++ "1024".toList
                    ++ "ab OFFSET cd".toList.drop (p + "OFFSET".toList.length),
                  p + "1024".toList.length) :=
  c2_replaceToken_correct "OFFSET".toList "1024".toList "ab OFFSET cd".toList 0
    ⟨3, by decide, by decide, by decide⟩

/-- C8: `replaceToken` has the unstated precondition that the token occurs at
or after the search position; when it does not, `std::string::find` returns
`npos` and `std::string::replace(npos, ...)` throws `std::out_of_range`
(modelled as `none`). -/
theorem c8_replaceToken_out_of_range (token text s : List Char) (pos : Nat)
    (hno : ∀ k, k ≤ s.length → pos ≤ k → ¬ token.isPrefixOf (s.drop k)) :
    strFind s token pos = none ∧ replaceToken token pos text s = none := by
  have hfind : strFind s token pos = none := by
    cases hf : strFind s token pos with
    | none => rfl
    | some p =>
        obtain ⟨h1, h2, h3, _⟩ := strFind_sound s token pos p hf
        exact absurd h3 (hno p h2 h1)
  exact ⟨hfind, by rw [replaceToken, hfind]⟩

/-- Witness for C8 at a concrete input: `"OFFSET"` does not occur in
`"abcdef"`, so the find comes back `npos` and the replace throws. -/
theorem c8_replaceToken_out_of_range_witness :
    strFind "abcdef".toList "OFFSET".toList 0 = none
      ∧ replaceToken "OFFSET".toList 0 "1024".toList "abcdef".toList = none :=
  c8_replaceToken_out_of_range "OFFSET".toList "1024".toList "abcdef".toList 0
    (by decide)

/-- Test-case enumeration of `StorageBufferTest` (declared in the class's
header; the `.cpp` uses `VALID`, `SOURCE_INVALID`, `DESTINATION_INVALID` and
the terminator `LAST`). -/
inductive StorageBufferTest.VERSION where
  | VALID
  | SOURCE_INVALID
  | DESTINATION_INVALID
  | LAST
  deriving DecidableEq, Repr

/-- Test-case enumeration of `UniformBufferTest` (declared in the class's
header; the `.cpp` uses `VALID`, `SOURCE_INVALID` and the terminator
`LAST`). -/
inductive UniformBufferTest.VERSION where
  | VALID
  | SOURCE_INVALID
  | LAST
  deriving DecidableEq, Repr

/-- The compute-shader template `cs` of `StorageBufferTest::getComputeShader`
(source lines 3415-3434). -/
def StorageBufferTest.cs : String :=
  "#version 430 core\n\nlayout (local_size_x = 4, local_size_y = 1, local_size_z = 1) in;\n\nlayout (binding = 1, std430) buffer Source \x7b\n    float data[];\n\x7d source;\n\nlayout (binding = 0, std430) buffer Destination \x7b\n    float data[];\n\x7d destination;\n\nvoid main()\n\x7b\n    const uint index_destination = gl_LocalInvocationID.x + OFFSET;\n    const uint index_source      = gl_LocalInvocationID.x + OFFSET;\n\n    destination.data[index_destination] = source.data[index_source];\n\x7d\n\n"

/-- The compute-shader template `cs` of `UniformBufferTest::getComputeShader`
(source lines 3696-3713). -/
def UniformBufferTest.cs : String :=
  "#version 430 core\n\nlayout (local_size_x = 4, local_size_y = 1, local_size_z = 1) in;\n\nlayout (binding = 0, std140) uniform Source \x7b\n    float data[16];\n\x7d source;\n\nlayout (binding = 0, std430) buffer Destination \x7b\n    float data[];\n\x7d destination;\n\nvoid main()\n\x7b\n    const uint index_destination = gl_LocalInvocationID.x + OFFSET;\n    const uint index_source      = gl_LocalInvocationID.x + OFFSET;\n\n    destination.data[index_destination] = source.data[index_source];\n\x7d\n\n"

/-- The part of `StorageBufferTest.cs` before the first `OFFSET` token. -/
def sbCsPre : String :=
  "#version 430 core\n\nlayout (local_size_x = 4, local_size_y = 1, local_size_z = 1) in;\n\nlayout (binding = 1, std430) buffer Source \x7b\n    float data[];\n\x7d source;\n\nlayout (binding = 0, std430) buffer Destination \x7b\n    float data[];\n\x7d destination;\n\nvoid main()\n\x7b\n    const uint index_destination = gl_LocalInvocationID.x + "

/-- The part of `UniformBufferTest.cs` before the first `OFFSET` token. -/
def ubCsPre : String :=
  "#version 430 core\n\nlayout (local_size_x = 4, local_size_y = 1, local_size_z = 1) in;\n\nlayout (binding = 0, std140) uniform Source \x7b\n    float data[16];\n\x7d source;\n\nlayout (binding = 0, std430) buffer Destination \x7b\n    float data[];\n\x7d destination;\n\nvoid main()\n\x7b\n    const uint index_destination = gl_LocalInvocationID.x + "

/-- The part of both templates between the two `OFFSET` tokens (the templates
share everything from the first `OFFSET` on). -/
def csMid : String :=
  ";\n    const uint index_source      = gl_LocalInvocationID.x + "

/-- The part of both templates after the second `OFFSET` token. -/
def csPost : String :=
  ";\n\n    destination.data[index_destination] = source.data[index_source];\n\x7d\n\n"

/-- `StorageBufferTest::getComputeShader` (source lines 3413-3453): the
destination index gets `offset` substituted exactly for `DESTINATION_INVALID`,
the source index exactly for `SOURCE_INVALID`, `"0"` otherwise; the two
`OFFSET` tokens are replaced left to right via `replaceToken`. -/
def StorageBufferTest.getComputeShader
    (m_test_case : StorageBufferTest.VERSION) (offset : Nat) : Option (List Char) :=
  let destination_offset : List Char :=
    if m_test_case = StorageBufferTest.VERSION.DESTINATION_INVALID then (Nat.repr offset).toList
    else "0".toList
  let source_offset : List Char :=
    if m_test_case = StorageBufferTest.VERSION.SOURCE_INVALID then (Nat.repr offset).toList
    else "0".toList
  match replaceToken "OFFSET".toList 0 destination_offset (StorageBufferTest.cs).toList with
  | none => none
  | some (source1, position) =>
      match replaceToken "OFFSET".toList position source_offset source1 with
      | none => none
      | some (source2, _) => some source2

/-- `UniformBufferTest::getComputeShader` (source lines 3694-3732): the
destination index is always `"0"`; only the source index can be made out of
range (`offset` substituted exactly for `SOURCE_INVALID`). -/
def UniformBufferTest.getComputeShader
    (m_test_case : UniformBufferTest.VERSION) (offset : Nat) : Option (List Char) :=
  let destination_offset : List Char := "0".toList
  let source_offset : List Char :=
    if m_test_case = UniformBufferTest.VERSION.SOURCE_INVALID then (Nat.repr offset).toList
    else "0".toList
  match replaceToken "OFFSET".toList 0 destination_offset (UniformBufferTest.cs).toList with
  | none => none
  | some (source1, position) =>
      match replaceToken "OFFSET".toList position source_offset source1 with
      | none => none
      | some (source2, _) => some source2

set_option maxHeartbeats 1000000 in
set_option maxRecDepth 10000 in
/-- Helper: the storage-buffer template splits at its two `OFFSET` tokens. -/
theorem sbCs_split :
    (StorageBufferTest.cs).toList
      = sbCsPre.toList ++ "OFFSET".toList
          ++ (csMid.toList ++ "OFFSET".toList ++ csPost.toList) := by
  decide

set_option maxHeartbeats 1000000 in
set_option maxRecDepth 10000 in
/-- Helper: the uniform-buffer template splits at its two `OFFSET` tokens. -/
theorem ubCs_split :
    (UniformBufferTest.cs).toList
      = ubCsPre.toList ++ "OFFSET".toList
          ++ (csMid.toList ++ "OFFSET".toList ++ csPost.toList) := by
  decide

set_option maxHeartbeats 1000000 in
set_option maxRecDepth 10000 in
/-- Helper: in the storage-buffer template the first occurrence of `OFFSET`
is right after `sbCsPre`. -/
theorem sbCs_find1 :
    strFind (sbCsPre.toList ++ "OFFSET".toList
        ++ (csMid.toList ++ "OFFSET".toList ++ csPost.toList)) "OFFSET".toList 0
      = some sbCsPre.toList.length := by
  decide

set_option maxHeartbeats 1000000 in
set_option maxRecDepth 10000 in
/-- Helper: in the uniform-buffer template the first occurrence of `OFFSET`
is right after `ubCsPre`. -/
theorem ubCs_find1 :
    strFind (ubCsPre.toList ++ "OFFSET".toList
        ++ (csMid.toList ++ "OFFSET".toList ++ csPost.toList)) "OFFSET".toList 0
      = some ubCsPre.toList.length := by
  decide

set_option maxHeartbeats 1000000 in
set_option maxRecDepth 10000 in
/-- Helper: in the common tail of both templates the first occurrence of
`OFFSET` is right after `csMid`. -/
theorem csMid_find :
    strFind (csMid.toList ++ "OFFSET".toList ++ csPost.toList) "OFFSET".toList 0
      = some csMid.toList.length := by
  decide

/-- C4: `VertexBufferObjectsTest::verifyValidResults` (via `verifyResults`)
returns `true` iff all 64 bytes read back from level 0 of the texture equal
255, and returns `false` as soon as any one of the 64 texels differs from
255. -/
theorem c4_vbo_verifyValidResults (pixels : Fin 64 → Nat) :
    (VertexBufferObjectsTest.verifyValidResults pixels = true ↔ ∀ i : Fin 64, pixels i = 255)
    ∧ (VertexBufferObjectsTest.verifyValidResults pixels = false ↔ ∃ i : Fin 64, pixels i ≠ 255) := by
  have h := vbo_verifyResults_eq_true_iff pixels
  rw [VertexBufferObjectsTest.verifyValidResults]
  refine ⟨h, ?_⟩
  rw [← Bool.not_eq_true, h]
  push_neg
  exact Iff.rfl

/-- C9: `VertexBufferObjectsTest::verifyInvalidResults` is exactly the boolean
negation of `verifyResults`: it accepts (returns `true`) precisely when at
least one of the 64 read-back texels differs from 255 — with no requirement
that any texel keep the clear value 128. -/
theorem c9_vbo_verifyInvalidResults (pixels : Fin 64 → Nat) :
    VertexBufferObjectsTest.verifyInvalidResults pixels
        = !VertexBufferObjectsTest.verifyResults pixels
    ∧ (VertexBufferObjectsTest.verifyInvalidResults pixels = true
        ↔ ∃ i : Fin 64, pixels i ≠ 255) := by
  have h := vbo_verifyResults_eq_true_iff pixels
  refine ⟨rfl, ?_⟩
  rw [VertexBufferObjectsTest.verifyInvalidResults, Bool.not_eq_true', ← Bool.not_eq_true, h]
  push_neg
  exact Iff.rfl

/-- C7: for each resource wrapper class, `Release()` leaves `m_id` equal to
`m_invalid_id`, and a second `Release()` issues no GL delete call and changes
no state (so a destructor after an explicit `Release()` never deletes the same
GL object twice). -/
theorem c7_release_idempotent :
    (∀ id, (Buffer.Release id).1 = Buffer.m_invalid_id
      ∧ Buffer.Release (Buffer.Release id).1 = (Buffer.m_invalid_id, []))
    ∧ (∀ id, (Framebuffer.Release id).1 = Framebuffer.m_invalid_id
      ∧ Framebuffer.Release (Framebuffer.Release id).1 = (Framebuffer.m_invalid_id, []))
    ∧ (∀ id, (Shader.Release id).1 = Shader.m_invalid_id
      ∧ Shader.Release (Shader.Release id).1 = (Shader.m_invalid_id, []))
    ∧ (∀ id, (Texture.Release id).1 = Texture.m_invalid_id
      ∧ Texture.Release (Texture.Release id).1 = (Texture.m_invalid_id, []))
    ∧ (∀ id, (VertexArray.Release id).1 = VertexArray.m_invalid_id
      ∧ VertexArray.Release (VertexArray.Release id).1 = (VertexArray.m_invalid_id, []))
    ∧ (∀ p : ProgramState, (Program.Release p).1 = ProgramState.fresh
      ∧ Program.Release (Program.Release p).1 = (ProgramState.fresh, [])) := by
  refine ⟨?_, ?_, ?_, ?_, ?_, ?_⟩ <;> intro x
  · unfold Buffer.Release
    split_ifs <;> simp_all
  · unfold Framebuffer.Release
    split_ifs <;> simp_all
  · unfold Shader.Release
    split_ifs <;> simp_all
  · unfold Texture.Release
    split_ifs <;> simp_all
  · unfold VertexArray.Release
    split_ifs <;> simp_all
  · have hsh : ∀ id, (Shader.Release id).1 = Shader.m_invalid_id := by
      intro id
      unfold Shader.Release
      split_ifs <;> simp_all
    have hfst : (Program.Release x).1 = ProgramState.fresh := by
      unfold Program.Release ProgramState.fresh
      by_cases h : Program.m_invalid_id ≠ x.m_id <;> simp [h, hsh]
      omega
    refine ⟨hfst, ?_⟩
    rw [hfst]
    rfl

/-- `StorageBufferTest::m_source_data` = `{2.0f, 3.0f, 4.0f, 5.0f}` (source
line 3296).  `GLfloat` values are modelled as rationals; the code only ever
compares them for equality. -/
def StorageBufferTest.m_source_data : Fin 4 → ℚ
  | 0 => 2
  | 1 => 3
  | 2 => 4
  | 3 => 5

/-- `StorageBufferTest::m_destination_data` = `{1.0f, 1.0f, 1.0f, 1.0f}`
(source line 3295). -/
def StorageBufferTest.m_destination_data : Fin 4 → ℚ := fun _ => 1

/-- `memcmp(expected_data, buffer_data, 4 * sizeof(GLfloat)) == 0`:
elementwise equality of the four read-back values in the embedding. -/
def memcmp4 (expected_data buffer_data : Fin 4 → ℚ) : Bool :=
  decide (∀ i : Fin 4, expected_data i = buffer_data i)

/-- `expected_data_valid` of `StorageBufferTest::verifyResults`. -/
def StorageBufferTest.expected_data_valid : Fin 4 → ℚ
  | 0 => 2
  | 1 => 3
  | 2 => 4
  | 3 => 5

/-- `expected_data_invalid_source` of `StorageBufferTest::verifyResults`. -/
def StorageBufferTest.expected_data_invalid_source : Fin 4 → ℚ := fun _ => 0

/-- `expected_data_invalid_destination` of `StorageBufferTest::verifyResults`. -/
def StorageBufferTest.expected_data_invalid_destination : Fin 4 → ℚ := fun _ => 1

/-- The `valid` flag computed by the `SOURCE_INVALID` KHR loop of
`StorageBufferTest::verifyResults` (source lines 3487-3508): the element is
0.0 or equals some value of the source buffer. -/
def StorageBufferTest.sourceElementValid (buffer_data : Fin 4 → ℚ) (b : Fin 4) : Bool :=
  decide (buffer_data b = 0
    ∨ ∃ c : Fin 4, buffer_data b = StorageBufferTest.m_source_data c)

/-- The `valid` flag computed by the `DESTINATION_INVALID` KHR loop of
`StorageBufferTest::verifyResults` (source lines 3521-3544): the element kept
its original destination value or equals some value of the source buffer. -/
def StorageBufferTest.destinationElementValid (buffer_data : Fin 4 → ℚ) (b : Fin 4) : Bool :=
  decide (buffer_data b = StorageBufferTest.m_destination_data b
    ∨ ∃ c : Fin 4, buffer_data b = StorageBufferTest.m_source_data c)

/-- `StorageBufferTest::verifyResults` (source lines 3461-3579).  The result
is `(return value, number of "Test case ... failed" log messages)`, `none`
modelling `TCU_FAIL("Invalid enum")`.  For `VALID`, and for the invalid cases
without `m_hasKhrRobustBufferAccess`, the tail `memcmp` against the literal
expected array decides the return value.  With `m_hasKhrRobustBufferAccess`
the per-element loops only log elements whose `valid` flag is false — they
contain no `return false` — so the function falls through to `return true`. -/
def StorageBufferTest.verifyResults (m_test_case : StorageBufferTest.VERSION)
    (m_hasKhrRobustBufferAccess : Bool) (buffer_data : Fin 4 → ℚ) : Option (Bool × Nat) :=
  match m_test_case with
  | StorageBufferTest.VERSION.VALID =>
      if memcmp4 StorageBufferTest.expected_data_valid buffer_data then some (true, 0)
      else some (false, 1)
  | StorageBufferTest.VERSION.SOURCE_INVALID =>
      if m_hasKhrRobustBufferAccess then
        some (true, ((List.finRange 4).filter
          (fun b => !StorageBufferTest.sourceElementValid buffer_data b)).length)
      else if memcmp4 StorageBufferTest.expected_data_invalid_source buffer_data then
        some (true, 0)
      else some (false, 1)
  | StorageBufferTest.VERSION.DESTINATION_INVALID =>
      if m_hasKhrRobustBufferAccess then
        some (true, ((List.finRange 4).filter
          (fun b => !StorageBufferTest.destinationElementValid buffer_data b)).length)
      else if memcmp4 StorageBufferTest.expected_data_invalid_destination buffer_data then
        some (true, 0)
      else some (false, 1)
  | StorageBufferTest.VERSION.LAST => none

/-- `expected_data_valid` of `UniformBufferTest::verifyResults`. -/
def UniformBufferTest.expected_data_valid : Fin 4 → ℚ
  | 0 => 2
  | 1 => 3
  | 2 => 4
  | 3 => 5

/-- `expected_data_invalid_source` of `UniformBufferTest::verifyResults`. -/
def UniformBufferTest.expected_data_invalid_source : Fin 4 → ℚ := fun _ => 0

/-- `UniformBufferTest::verifyResults` (source lines 3740-3773): a plain
`memcmp` against the literal expected array for the test case; `none` models
`TCU_FAIL("Invalid enum")`. -/
def UniformBufferTest.verifyResults (m_test_case : UniformBufferTest.VERSION)
    (buffer_data : Fin 4 → ℚ) : Option (Bool × Nat) :=
  match m_test_case with
  | UniformBufferTest.VERSION.VALID =>
      if memcmp4 UniformBufferTest.expected_data_valid buffer_data then some (true, 0)
      else some (false, 1)
  | UniformBufferTest.VERSION.SOURCE_INVALID =>
      if memcmp4 UniformBufferTest.expected_data_invalid_source buffer_data then some (true, 0)
      else some (false, 1)
  | UniformBufferTest.VERSION.LAST => none

/-- Helper: the `memcmp` model succeeds iff the buffer equals the expected
array. -/
theorem memcmp4_eq_true_iff (e bd : Fin 4 → ℚ) :
    memcmp4 e bd = true ↔ ∀ i : Fin 4, bd i = e i := by
  rw [memcmp4]
  simp only [decide_eq_true_eq]
  exact forall_congr' fun i => eq_comm

/-- Helper: a `memcmp` check against a literal expected array returns `true`
with no log iff the buffer equals the array, and `false` with one log iff it
differs. -/
theorem memcmp_check_iff (e bd : Fin 4 → ℚ) :
    ((if memcmp4 e bd then (some (true, 0) : Option (Bool × Nat)) else some (false, 1))
        = some (true, 0) ↔ ∀ i : Fin 4, bd i = e i)
    ∧ ((if memcmp4 e bd then (some (true, 0) : Option (Bool × Nat)) else some (false, 1))
        = some (false, 1) ↔ ¬ ∀ i : Fin 4, bd i = e i) := by
  have h := memcmp4_eq_true_iff e bd
  cases hm : memcmp4 e bd
  · rw [hm] at h
    simp only [Bool.false_eq_true, false_iff] at h
    simp [h]
  · rw [hm] at h
    simp only [true_iff] at h
    simp [h]

set_option maxRecDepth 10000 in
/-- C5: `StorageBufferTest::getComputeShader(offset)` returns the template
with its first `OFFSET` token (the destination index) replaced by the decimal
representation of `offset` exactly when the test case is
`DESTINATION_INVALID` and by `"0"` otherwise, and its second `OFFSET` token
(the source index) replaced by the decimal representation of `offset` exactly
when the test case is `SOURCE_INVALID` and by `"0"` otherwise;
`UniformBufferTest::getComputeShader` is analogous except that the
destination offset is always `"0"`. -/
theorem c5_getComputeShader (tcS : StorageBufferTest.VERSION)
    (tcU : UniformBufferTest.VERSION) (offset : Nat) :
    StorageBufferTest.getComputeShader tcS offset
      = some (sbCsPre.toList
          ++ (if tcS = StorageBufferTest.VERSION.DESTINATION_INVALID
              then (Nat.repr offset).toList else "0".toList)
          ++ csMid.toList
          ++ (if tcS = StorageBufferTest.VERSION.SOURCE_INVALID
              then (Nat.repr offset).toList else "0".toList)
          ++ csPost.toList)
    ∧ UniformBufferTest.getComputeShader tcU offset
      = some (ubCsPre.toList ++ "0".toList ++ csMid.toList
          ++ (if tcU = UniformBufferTest.VERSION.SOURCE_INVALID
              then (Nat.repr offset).toList else "0".toList)
          ++ csPost.toList) := by
  constructor
  · obtain ⟨r1, r2⟩ := replaceToken_two sbCsPre.toList csMid.toList csPost.toList
        "OFFSET".toList
        (if tcS = StorageBufferTest.VERSION.DESTINATION_INVALID
         then (Nat.repr offset).toList else "0".toList)
        (if tcS = StorageBufferTest.VERSION.SOURCE_INVALID
         then (Nat.repr offset).toList else "0".toList)
        sbCs_find1 csMid_find
    simp only [StorageBufferTest.getComputeShader]
    rw [sbCs_split, r1]
    dsimp only
    rw [r2]
  · obtain ⟨r1, r2⟩ := replaceToken_two ubCsPre.toList csMid.toList csPost.toList
        "OFFSET".toList "0".toList
        (if tcU = UniformBufferTest.VERSION.SOURCE_INVALID
         then (Nat.repr offset).toList else "0".toList)
        ubCs_find1 csMid_find
    simp only [UniformBufferTest.getComputeShader]
    rw [ubCs_split, r1]
    dsimp only
    rw [r2]

/-- C1 counterexample: with the KHR robust-buffer-access path taken
(`m_hasKhrRobustBufferAccess` true) and `SOURCE_INVALID`, the read-back value
7.0 is neither 0.0 nor a value from the source buffer `{2,3,4,5}`, yet
`StorageBufferTest::verifyResults` returns `true` (after logging four failure
messages): the per-element loop logs but never returns `false`, contradicting
the claim that the function returns `false` on a disallowed element. -/
theorem c1_counterexample :
    StorageBufferTest.verifyResults StorageBufferTest.VERSION.SOURCE_INVALID true
        (fun _ => (7 : ℚ)) = some (true, 4)
    ∧ ¬((7 : ℚ) = 0 ∨ ∃ c : Fin 4, (7 : ℚ) = StorageBufferTest.m_source_data c) := by
  constructor
  · rfl
  · decide

/-- C1 (amended): `StorageBufferTest::verifyResults` returns `false` exactly
on the literal-`memcmp` path — for `VALID` iff the data differs from
`{2,3,4,5}`, and for `SOURCE_INVALID` / `DESTINATION_INVALID` without
`m_hasKhrRobustBufferAccess` iff the data differs from `{0,0,0,0}` /
`{1,1,1,1}` (exact equality, not the relaxed fallback set); when
`m_hasKhrRobustBufferAccess` is true the relaxed per-element checks only log
failures and the function returns `true` for every `buffer_data`. -/
theorem c1_sb_verifyResults_amended (hasKhr : Bool) (bd : Fin 4 → ℚ) :
    (StorageBufferTest.verifyResults StorageBufferTest.VERSION.VALID hasKhr bd
        = some (true, 0) ↔ ∀ i : Fin 4, bd i = StorageBufferTest.expected_data_valid i)
    ∧ (StorageBufferTest.verifyResults StorageBufferTest.VERSION.VALID hasKhr bd
        = some (false, 1) ↔ ¬ ∀ i : Fin 4, bd i = StorageBufferTest.expected_data_valid i)
    ∧ (∃ n, StorageBufferTest.verifyResults StorageBufferTest.VERSION.SOURCE_INVALID true bd
        = some (true, n))
    ∧ (StorageBufferTest.verifyResults StorageBufferTest.VERSION.SOURCE_INVALID false bd
        = some (true, 0) ↔ ∀ i : Fin 4, bd i = 0)
    ∧ (StorageBufferTest.verifyResults StorageBufferTest.VERSION.SOURCE_INVALID false bd
        = some (false, 1) ↔ ¬ ∀ i : Fin 4, bd i = 0)
    ∧ (∃ n, StorageBufferTest.verifyResults StorageBufferTest.VERSION.DESTINATION_INVALID true bd
        = some (true, n))
    ∧ (StorageBufferTest.verifyResults StorageBufferTest.VERSION.DESTINATION_INVALID false bd
        = some (true, 0) ↔ ∀ i : Fin 4, bd i = 1)
    ∧ (StorageBufferTest.verifyResults StorageBufferTest.VERSION.DESTINATION_INVALID false bd
        = some (false, 1) ↔ ¬ ∀ i : Fin 4, bd i = 1) := by
  refine ⟨?_, ?_, ⟨_, rfl⟩, ?_, ?_, ⟨_, rfl⟩, ?_, ?_⟩
  · simpa only [StorageBufferTest.verifyResults]
      using (memcmp_check_iff StorageBufferTest.expected_data_valid bd).1
  · simpa only [StorageBufferTest.verifyResults]
      using (memcmp_check_iff StorageBufferTest.expected_data_valid bd).2
  · simpa only [StorageBufferTest.verifyResults, Bool.false_eq_true, if_false,
        StorageBufferTest.expected_data_invalid_source]
      using (memcmp_check_iff StorageBufferTest.expected_data_invalid_source bd).1
  · simpa only [StorageBufferTest.verifyResults, Bool.false_eq_true, if_false,
        StorageBufferTest.expected_data_invalid_source]
      using (memcmp_check_iff StorageBufferTest.expected_data_invalid_source bd).2
  · simpa only [StorageBufferTest.verifyResults, Bool.false_eq_true, if_false,
        StorageBufferTest.expected_data_invalid_destination]
      using (memcmp_check_iff StorageBufferTest.expected_data_invalid_destination bd).1
  · simpa only [StorageBufferTest.verifyResults, Bool.false_eq_true, if_false,
        StorageBufferTest.expected_data_invalid_destination]
      using (memcmp_check_iff StorageBufferTest.expected_data_invalid_destination bd).2

/-- C3: `UniformBufferTest::verifyResults` returns `true` iff the four floats
equal the expected literal array for the test case — `{2,3,4,5}` for `VALID`,
`{0,0,0,0}` for `SOURCE_INVALID` — and `false` (with one failure log)
otherwise. -/
theorem c3_ub_verifyResults (bd : Fin 4 → ℚ) :
    (UniformBufferTest.verifyResults UniformBufferTest.VERSION.VALID bd
        = some (true, 0) ↔ ∀ i : Fin 4, bd i = UniformBufferTest.expected_data_valid i)
    ∧ (UniformBufferTest.verifyResults UniformBufferTest.VERSION.VALID bd
        = some (false, 1) ↔ ¬ ∀ i : Fin 4, bd i = UniformBufferTest.expected_data_valid i)
    ∧ (UniformBufferTest.verifyResults UniformBufferTest.VERSION.SOURCE_INVALID bd
        = some (true, 0) ↔ ∀ i : Fin 4, bd i = 0)
    ∧ (UniformBufferTest.verifyResults UniformBufferTest.VERSION.SOURCE_INVALID bd
        = some (false, 1) ↔ ¬ ∀ i : Fin 4, bd i = 0) := by
  refine ⟨?_, ?_, ?_, ?_⟩
  · simpa only [UniformBufferTest.verifyResults]
      using (memcmp_check_iff UniformBufferTest.expected_data_valid bd).1
  · simpa only [UniformBufferTest.verifyResults]
      using (memcmp_check_iff UniformBufferTest.expected_data_valid bd).2
  · simpa only [UniformBufferTest.verifyResults, UniformBufferTest.expected_data_invalid_source]
      using (memcmp_check_iff UniformBufferTest.expected_data_invalid_source bd).1
  · simpa only [UniformBufferTest.verifyResults, UniformBufferTest.expected_data_invalid_source]
      using (memcmp_check_iff UniformBufferTest.expected_data_invalid_source bd).2

/-- The parts of the `deqp::Context` surroundings the feature check reads:
which GL extensions are supported, and whether the context supports OpenGL
4.3 core (`contextSupports(context_type, glu::ApiType::core(4, 3))`). -/
structure Context where
  extensions : List String
  apiCore43 : Bool

/-- `glu::ContextInfo::isExtensionSupported`: whether `name` is among the
context's supported extensions. -/
def Context.isExtensionSupported (ctx : Context) (name : String) : Bool :=
  decide (name ∈ ctx.extensions)

/-- The `qpTestResult` values this module sets. -/
inductive QPResult where
  | NOT_SUPPORTED
  | PASS
  | FAIL
  deriving DecidableEq, Repr

/-- `tcu::TestNode::IterateResult`. -/
inductive IterateResult where
  | STOP
  | CONTINUE
  deriving DecidableEq, Repr

/-- `isRobustBufferAccessBehaviorFeatureSupported` (source lines 1016-1027):
returns whether `GL_KHR_robust_buffer_access_behavior` or
`GL_ARB_robust_buffer_access_behavior` is supported or the context supports
GL 4.3 core; when not, it sets the test result `QP_TEST_RESULT_NOT_SUPPORTED`
(the second component records that effect). -/
def isRobustBufferAccessBehaviorFeatureSupported (ctx : Context) : Bool × Option QPResult :=
  if ctx.isExtensionSupported "GL_KHR_robust_buffer_access_behavior"
      || ctx.isExtensionSupported "GL_ARB_robust_buffer_access_behavior"
      || ctx.apiCore43 then
    (true, none)
  else
    (false, some QPResult.NOT_SUPPORTED)

/-- The prologue shared verbatim by the five `iterate()` implementations
(source lines 1053-1056, 1326-1329, 2410-2413, 3324-3327, 3604-3607):
`if (!isRobustBufferAccessBehaviorFeatureSupported(m_context)) return STOP;`.
The remainder of the body — resource creation, draw/dispatch calls and result
reporting — is abstracted as `body` (a GL-call trace, a final test result and
an iterate result), since it runs only when the feature check passed. -/
def testIterate (ctx : Context) (body : List GLCall × Option QPResult × IterateResult) :
    List GLCall × Option QPResult × IterateResult :=
  let check := isRobustBufferAccessBehaviorFeatureSupported ctx
  if check.1 then body else ([], check.2, IterateResult.STOP)

/-- C6: the feature check succeeds iff `GL_KHR_robust_buffer_access_behavior`
or `GL_ARB_robust_buffer_access_behavior` is supported or the context
supports OpenGL 4.3 core; when it fails it sets
`QP_TEST_RESULT_NOT_SUPPORTED`, and every test's `iterate()` then returns
`STOP` immediately — no GL call of the body is issued, whatever the body. -/
theorem c6_feature_support (ctx : Context)
    (body : List GLCall × Option QPResult × IterateResult) :
    ((isRobustBufferAccessBehaviorFeatureSupported ctx).1 = true
      ↔ "GL_KHR_robust_buffer_access_behavior" ∈ ctx.extensions
        ∨ "GL_ARB_robust_buffer_access_behavior" ∈ ctx.extensions
        ∨ ctx.apiCore43 = true)
    ∧ ((isRobustBufferAccessBehaviorFeatureSupported ctx).1 = false →
        (isRobustBufferAccessBehaviorFeatureSupported ctx).2 = some QPResult.NOT_SUPPORTED
        ∧ testIterate ctx body = ([], some QPResult.NOT_SUPPORTED, IterateResult.STOP)) := by
  have hcond : (ctx.isExtensionSupported "GL_KHR_robust_buffer_access_behavior"
      || ctx.isExtensionSupported "GL_ARB_robust_buffer_access_behavior"
      || ctx.apiCore43) = true
      ↔ "GL_KHR_robust_buffer_access_behavior" ∈ ctx.extensions
        ∨ "GL_ARB_robust_buffer_access_behavior" ∈ ctx.extensions
        ∨ ctx.apiCore43 = true := by
    simp [Context.isExtensionSupported, or_assoc]
  constructor
  · rw [isRobustBufferAccessBehaviorFeatureSupported]
    split_ifs with h
    · simp only [true_iff]
      exact hcond.mp h
    · constructor
      · intro hc
        exact absurd hc (by simp)
      · intro hc
        exact absurd (hcond.mpr hc) h
  · intro hfail
    have heff : (isRobustBufferAccessBehaviorFeatureSupported ctx).2
        = some QPResult.NOT_SUPPORTED := by
      by_cases h : (ctx.isExtensionSupported "GL_KHR_robust_buffer_access_behavior"
          || ctx.isExtensionSupported "GL_ARB_robust_buffer_access_behavior"
          || ctx.apiCore43) = true
      · rw [isRobustBufferAccessBehaviorFeatureSupported, if_pos h] at hfail
        exact absurd hfail (by simp)
      · rw [isRobustBufferAccessBehaviorFeatureSupported, if_neg h]
    refine ⟨heff, ?_⟩
    rw [testIterate, if_neg (by simp [hfail]), heff]

/-- Witness for C6 at a concrete input: a context with no extensions and no
GL 4.3 core support is unsupported, the NOT_SUPPORTED result is set, and an
iterate with a non-trivial body stops with no GL calls. -/
theorem c6_feature_support_witness :
    (isRobustBufferAccessBehaviorFeatureSupported ⟨[], false⟩).1 = false
    ∧ (isRobustBufferAccessBehaviorFeatureSupported ⟨[], false⟩).2
        = some QPResult.NOT_SUPPORTED
    ∧ testIterate ⟨[], false⟩
        ([GLCall.deleteBuffers 0], some QPResult.PASS, IterateResult.CONTINUE)
        = ([], some QPResult.NOT_SUPPORTED, IterateResult.STOP) :=
  ⟨by decide,
   (c6_feature_support ⟨[], false⟩
      ([GLCall.deleteBuffers 0], some QPResult.PASS, IterateResult.CONTINUE)).2 (by decide)⟩

/-- The GL driver's responses to the calls `Shader::Init` / `Program::Init`
issue: the id `glCreateShader` returns per stage, the compile status per
shader id, the id `glCreateProgram` returns, and the link status per program
id. -/
structure GLEnv where
  createShaderId : Nat → Nat
  compileStatus : Nat → Bool
  createProgramId : Nat
  linkStatus : Nat → Bool

/-- `Shader::Init` (source lines 501-519): an empty source returns
immediately — no shader object is created and `m_id` is untouched; otherwise
the previous shader is released and Create/Source/Compile run.  `none` models
the `TCU_FAIL` of `Shader::Create` when `glCreateShader` returns the invalid
id, and of `Shader::Compile` when compilation fails. -/
def Shader.Init (env : GLEnv) (m_id : Nat) (stage : Nat) (source : String) :
    Option (Nat × List GLCall) :=
  if source.isEmpty then some (m_id, [])
  else
    let rel := Shader.Release m_id
    let id := env.createShaderId stage
    if id = Shader.m_invalid_id then none
    else if env.compileStatus id then
      some (id, rel.2 ++ [GLCall.createShader stage id, GLCall.shaderSource id,
                          GLCall.compileShader id])
    else none

/-- `Program::Attach` (source lines 399-409): does nothing — no GL call, no
error — when the program id or the shader id equals the invalid id. -/
def Program.Attach (program_id shader_id : Nat) : List GLCall :=
  if Program.m_invalid_id = program_id ∨ Shader.m_invalid_id = shader_id then []
  else [GLCall.attachShader program_id shader_id]

/-- `Program::Init` (source lines 328-358): release the previous program,
initialize the six shaders (an empty source leaving the corresponding shader
absent), create the program, attach the six shaders, link.  `none` models the
`TCU_FAIL`s of shader creation/compilation, program creation and linking. -/
def Program.Init (env : GLEnv) (p : ProgramState)
    (compute_shader fragment_shader geometry_shader tesselation_control_shader
      tesselation_evaluation_shader vertex_shader : String) :
    Option (ProgramState × List GLCall) := do
  let rel := Program.Release p
  let (idC, cC) ← Shader.Init env rel.1.m_compute GL_COMPUTE_SHADER compute_shader
  let (idF, cF) ← Shader.Init env rel.1.m_fragment GL_FRAGMENT_SHADER fragment_shader
  let (idG, cG) ← Shader.Init env rel.1.m_geometry GL_GEOMETRY_SHADER geometry_shader
  let (idTC, cTC) ← Shader.Init env rel.1.m_tess_ctrl GL_TESS_CONTROL_SHADER
      tesselation_control_shader
  let (idTE, cTE) ← Shader.Init env rel.1.m_tess_eval GL_TESS_EVALUATION_SHADER
      tesselation_evaluation_shader
  let (idV, cV) ← Shader.Init env rel.1.m_vertex GL_VERTEX_SHADER vertex_shader
  let pid := env.createProgramId
  if pid = Program.m_invalid_id then none
  else if env.linkStatus pid then
    some ({ m_id := pid
            m_compute := idC
            m_fragment := idF
            m_geometry := idG
            m_tess_ctrl := idTC
            m_tess_eval := idTE
            m_vertex := idV },
          rel.2 ++ cC ++ cF ++ cG ++ cTC ++ cTE ++ cV ++ [GLCall.createProgram pid]
            ++ Program.Attach pid idC ++ Program.Attach pid idF ++ Program.Attach pid idG
            ++ Program.Attach pid idTC ++ Program.Attach pid idTE ++ Program.Attach pid idV
            ++ [GLCall.linkProgram pid])
  else none

/-- The shader id a stage ends up with after `Program::Init`: untouched
(invalid) for an empty source, the freshly created id otherwise. -/
def stageId (env : GLEnv) (stage : Nat) (source : String) : Nat :=
  if source.isEmpty then Shader.m_invalid_id else env.createShaderId stage

/-- The GL calls `Shader::Init` issues for a stage starting from an absent
shader: none for an empty source, Create/Source/Compile otherwise. -/
def stageInitCalls (env : GLEnv) (stage : Nat) (source : String) : List GLCall :=
  if source.isEmpty then []
  else [GLCall.createShader stage (env.createShaderId stage),
        GLCall.shaderSource (env.createShaderId stage),
        GLCall.compileShader (env.createShaderId stage)]

/-- The attach calls a stage contributes: none for an empty source (the
shader id stayed invalid, so `Program::Attach` skips it), exactly one
`glAttachShader` otherwise. -/
def stageAttach (env : GLEnv) (stage : Nat) (source : String) : List GLCall :=
  if source.isEmpty then []
  else [GLCall.attachShader env.createProgramId (env.createShaderId stage)]

/-- Helper: `Shader::Init` from an absent shader, when the driver hands out
valid ids and compiles successfully. -/
theorem shader_init_fresh (env : GLEnv) (stage : Nat) (source : String)
    (hid : env.createShaderId stage ≠ Shader.m_invalid_id)
    (hcompile : ∀ id, env.compileStatus id = true) :
    Shader.Init env Shader.m_invalid_id stage source
      = some (stageId env stage source, stageInitCalls env stage source) := by
  rw [Shader.Init, stageId, stageInitCalls]
  cases hsrc : source.isEmpty
  · simp [hsrc, hid, hcompile, Shader.Release]
  · simp [hsrc]

/-- Helper: `Program::Attach` with a valid program id attaches exactly the
stages whose shader id is valid. -/
theorem attach_stage (env : GLEnv) (stage : Nat) (source : String)
    (hprog : env.createProgramId ≠ Program.m_invalid_id)
    (hid : env.createShaderId stage ≠ Shader.m_invalid_id) :
    Program.Attach env.createProgramId (stageId env stage source)
      = stageAttach env stage source := by
  rw [Program.Attach, stageId, stageAttach]
  cases hsrc : source.isEmpty
  · simp only [Bool.false_eq_true, if_false]
    rw [if_neg]
    intro hor
    rcases hor with h | h
    · exact hprog h.symm
    · exact hid h.symm
  · simp

/-- C10: `Shader::Init` with an empty source returns immediately without
creating a shader object or modifying `m_id`; `Program::Attach` is a no-op
whenever the program id or shader id is invalid; consequently `Program::Init`
on a fresh program builds and links a program from any subset of the six
stages, attaching exactly the stages whose source is non-empty. -/
theorem c10_empty_stage_handling (env : GLEnv)
    (cs fs gs tcs tes vs : String)
    (hshader : ∀ stage, env.createShaderId stage ≠ Shader.m_invalid_id)
    (hcompile : ∀ id, env.compileStatus id = true)
    (hprog : env.createProgramId ≠ Program.m_invalid_id)
    (hlink : ∀ id, env.linkStatus id = true) :
    (∀ m_id stage, Shader.Init env m_id stage "" = some (m_id, []))
    ∧ (∀ program_id shader_id,
        program_id = Program.m_invalid_id ∨ shader_id = Shader.m_invalid_id →
        Program.Attach program_id shader_id = [])
    ∧ Program.Init env ProgramState.fresh cs fs gs tcs tes vs
        = some ({ m_id := env.createProgramId
                  m_compute := stageId env GL_COMPUTE_SHADER cs
                  m_fragment := stageId env GL_FRAGMENT_SHADER fs
                  m_geometry := stageId env GL_GEOMETRY_SHADER gs
                  m_tess_ctrl := stageId env GL_TESS_CONTROL_SHADER tcs
                  m_tess_eval := stageId env GL_TESS_EVALUATION_SHADER tes
                  m_vertex := stageId env GL_VERTEX_SHADER vs },
                stageInitCalls env GL_COMPUTE_SHADER cs
                  ++ stageInitCalls env GL_FRAGMENT_SHADER fs
                  ++ stageInitCalls env GL_GEOMETRY_SHADER gs
                  ++ stageInitCalls env GL_TESS_CONTROL_SHADER tcs
                  ++ stageInitCalls env GL_TESS_EVALUATION_SHADER tes
                  ++ stageInitCalls env GL_VERTEX_SHADER vs
                  ++ [GLCall.createProgram env.createProgramId]
                  ++ stageAttach env GL_COMPUTE_SHADER cs
                  ++ stageAttach env GL_FRAGMENT_SHADER fs
                  ++ stageAttach env GL_GEOMETRY_SHADER gs
                  ++ stageAttach env GL_TESS_CONTROL_SHADER tcs
                  ++ stageAttach env GL_TESS_EVALUATION_SHADER tes
                  ++ stageAttach env GL_VERTEX_SHADER vs
                  ++ [GLCall.linkProgram env.createProgramId]) := by
  refine ⟨fun m_id stage => rfl, ?_, ?_⟩
  · intro program_id shader_id h
    rw [Program.Attach, if_pos]
    rcases h with h | h
    · exact Or.inl h.symm
    · exact Or.inr h.symm
  · have hrel : Program.Release ProgramState.fresh = (ProgramState.fresh, []) := rfl
    rw [Program.Init, hrel]
    simp only [ProgramState.fresh]
    rw [shader_init_fresh env GL_COMPUTE_SHADER cs (hshader _) hcompile,
      shader_init_fresh env GL_FRAGMENT_SHADER fs (hshader _) hcompile,
      shader_init_fresh env GL_GEOMETRY_SHADER gs (hshader _) hcompile,
      shader_init_fresh env GL_TESS_CONTROL_SHADER tcs (hshader _) hcompile,
      shader_init_fresh env GL_TESS_EVALUATION_SHADER tes (hshader _) hcompile,
      shader_init_fresh env GL_VERTEX_SHADER vs (hshader _) hcompile]
    simp only [Option.bind_eq_bind, Option.some_bind]
    rw [if_neg hprog, if_pos (hlink _)]
    rw [attach_stage env GL_COMPUTE_SHADER cs hprog (hshader _),
      attach_stage env GL_FRAGMENT_SHADER fs hprog (hshader _),
      attach_stage env GL_GEOMETRY_SHADER gs hprog (hshader _),
      attach_stage env GL_TESS_CONTROL_SHADER tcs hprog (hshader _),
      attach_stage env GL_TESS_EVALUATION_SHADER tes hprog (hshader _),
      attach_stage env GL_VERTEX_SHADER vs hprog (hshader _)]
    simp

/-- Witness for C10 at a concrete input: a driver handing out shader id 7,
program id 5, compiling and linking successfully; only the compute stage has
a (non-empty) source, so exactly one shader is created and attached. -/
theorem c10_empty_stage_handling_witness :
    (∀ m_id stage, Shader.Init ⟨fun _ => 7, fun _ => true, 5, fun _ => true⟩ m_id stage ""
        = some (m_id, []))
    ∧ (∀ program_id shader_id,
        program_id = Program.m_invalid_id ∨ shader_id = Shader.m_invalid_id →
        Program.Attach program_id shader_id = [])
    ∧ Program.Init ⟨fun _ => 7, fun _ => true, 5, fun _ => true⟩ ProgramState.fresh
        "x" "" "" "" "" ""
        = some ({ m_id := 5
                  m_compute := stageId ⟨fun _ => 7, fun _ => true, 5, fun _ => true⟩
                    GL_COMPUTE_SHADER "x"
                  m_fragment := stageId ⟨fun _ => 7, fun _ => true, 5, fun _ => true⟩
                    GL_FRAGMENT_SHADER ""
                  m_geometry := stageId ⟨fun _ => 7, fun _ => true, 5, fun _ => true⟩
                    GL_GEOMETRY_SHADER ""
                  m_tess_ctrl := stageId ⟨fun _ => 7, fun _ => true, 5, fun _ => true⟩
                    GL_TESS_CONTROL_SHADER ""
                  m_tess_eval := stageId ⟨fun _ => 7, fun _ => true, 5, fun _ => true⟩
                    GL_TESS_EVALUATION_SHADER ""
                  m_vertex := stageId ⟨fun _ => 7, fun _ => true, 5, fun _ => true⟩
                    GL_VERTEX_SHADER "" },
                stageInitCalls ⟨fun _ => 7, fun _ => true, 5, fun _ => true⟩
                    GL_COMPUTE_SHADER "x"
                  ++ stageInitCalls ⟨fun _ => 7, fun _ => true, 5, fun _ => true⟩
                    GL_FRAGMENT_SHADER ""
                  ++ stageInitCalls ⟨fun _ => 7, fun _ => true, 5, fun _ => true⟩
                    GL_GEOMETRY_SHADER ""
                  ++ stageInitCalls ⟨fun _ => 7, fun _ => true, 5, fun _ => true⟩
                    GL_TESS_CONTROL_SHADER ""
                  ++ stageInitCalls ⟨fun _ => 7, fun _ => true, 5, fun _ => true⟩
                    GL_TESS_EVALUATION_SHADER ""
                  ++ stageInitCalls ⟨fun _ => 7, fun _ => true, 5, fun _ => true⟩
                    GL_VERTEX_SHADER ""
                  ++ [GLCall.createProgram 5]
                  ++ stageAttach ⟨fun _ => 7, fun _ => true, 5, fun _ => true⟩
                    GL_COMPUTE_SHADER "x"
                  ++ stageAttach ⟨fun _ => 7, fun _ => true, 5, fun _ => true⟩
                    GL_FRAGMENT_SHADER ""
                  ++ stageAttach ⟨fun _ => 7, fun _ => true, 5, fun _ => true⟩
                    GL_GEOMETRY_SHADER ""
                  ++ stageAttach ⟨fun _ => 7, fun _ => true, 5, fun _ => true⟩
                    GL_TESS_CONTROL_SHADER ""
                  ++ stageAttach ⟨fun _ => 7, fun _ => true, 5, fun _ => true⟩
                    GL_TESS_EVALUATION_SHADER ""
                  ++ stageAttach ⟨fun _ => 7, fun _ => true, 5, fun _ => true⟩
                    GL_VERTEX_SHADER ""
                  ++ [GLCall.linkProgram 5]) :=
  c10_empty_stage_handling ⟨fun _ => 7, fun _ => true, 5, fun _ => true⟩
    "x" "" "" "" "" ""
    (fun _ => (by decide : (7 : Nat) ≠ 0)) (fun _ => rfl) (by decide) (fun _ => rfl)

end RobustBufferAccessBehavior
